import Mathlib

/-!
Shallow embedding of the policy-engine configuration layer of gemini-cli
(`createPolicyEngineConfig`, `loadPoliciesFromConfig`, `transformPriority`,
`getPolicyTier`, `createPolicyUpdater` and the zod schemas around them),
together with a spec-modelled evaluation engine, used to settle the claims
about tier-compiled priorities, settings-synthesized rules, the rule-file
loader and the update channel.

File I/O is modelled by an explicit `PolicyFS` value (directory listings and
per-file parse results after TOML parsing and zod validation); JavaScript
regular-expression compilation is modelled abstractly by a `regexOk`
predicate on pattern source strings (the loader only observes whether
`new RegExp(p)` throws); JS exceptions thrown inside a per-file `try` block
are modelled by `Option` (a `none` mid-file aborts that file's whole
contribution, as the exception lands in the per-file `catch`).
-/

namespace GeminiPolicy

/-- JS `String.prototype.endsWith`, over the character data of the Lean
strings (kept kernel-computable). -/
def strEndsWith (s suffix : String) : Bool :=
  suffix.data.isSuffixOf s.data

/-- JS `String.prototype.startsWith`, over the character data. -/
def strStartsWith (s pre : String) : Bool :=
  pre.data.isPrefixOf s.data

/-- Drop the final character of a string. -/
def strDropLast (s : String) : String :=
  String.mk s.data.dropLast

/-- The decision enum (`PolicyDecision` in the core package). -/
inductive PolicyDecision where
  | allow
  | deny
  | ask_user
deriving DecidableEq, Repr

/-- A compiled policy rule as produced by the loader and the settings
synthesizer. The source stores `argsPattern` as a compiled `RegExp`; we keep
the pattern's source text (compilation success is tracked by the `regexOk`
parameter threaded through the loader). -/
structure PolicyRule where
  toolName : Option String
  argsPattern : Option String
  decision : PolicyDecision
  priority : ℚ
deriving DecidableEq, Repr

/-- `PolicyEngineConfig`: the compiled rules plus the fallback decision. -/
structure PolicyEngineConfig where
  rules : List PolicyRule
  defaultDecision : PolicyDecision
deriving DecidableEq, Repr

/-- The three resolved policy directory paths (default / user / admin) that
`getPolicyDirectories` and `getPolicyTier` compute from the module location,
`Storage.getUserPoliciesDir()` and the system settings path. We take them as
an input (already path-normalized). -/
structure PolicyDirs where
  defaultDir : String
  userDir : String
  adminDir : String
deriving DecidableEq, Repr

/-- `getPolicyDirectories`: `[DEFAULT, USER, ADMIN].reverse()`. -/
def getPolicyDirectories (d : PolicyDirs) : List String :=
  [d.defaultDir, d.userDir, d.adminDir].reverse

/-- `getPolicyTier`: default dir → 1, user dir → 2, admin dir → 3,
unknown → 1. -/
def getPolicyTier (d : PolicyDirs) (dir : String) : ℚ :=
  if dir = d.defaultDir then 1
  else if dir = d.userDir then 2
  else if dir = d.adminDir then 3
  else 1

/-- `transformPriority(priority, tier) = tier + priority / 1000`. -/
def transformPriority (priority tier : ℚ) : ℚ :=
  tier + priority / 1000

/-- A rule entry of a policy file after TOML parsing and zod validation
(`PolicyRuleSchema`): `toolName` is optionally a string or an array of
strings, `mcpName` and `argsPattern` are optional strings, `decision` is a
`PolicyDecision`, `priority` any number, `modes` an optional string array. -/
structure PolicyRuleEntry where
  toolName : Option (String ⊕ List String)
  mcpName : Option String
  argsPattern : Option String
  decision : PolicyDecision
  priority : ℚ
  modes : Option (List String)
deriving DecidableEq, Repr

/-- JS truthiness of an optional string: `undefined` and the empty string
are falsy. -/
def isTruthy : Option String → Bool
  | none => false
  | some s => s ≠ ""

/-- The mode filter of `loadPoliciesFromConfig`: a rule with no `modes`
field (or an empty list) applies to all modes, otherwise the current
approval mode must be listed. -/
def modeApplies (modes : Option (List String)) (approvalMode : String) : Bool :=
  match modes with
  | none => true
  | some l => l.isEmpty || l.contains approvalMode

/-- Normalization of a rule entry's `toolName` field to an array, as in the
source: a truthy string becomes a one-element array, an array is taken
as-is, and `undefined` (or the falsy empty string) becomes `[undefined]`. -/
def toolNamesOf : Option (String ⊕ List String) → List (Option String)
  | none => [none]
  | some (Sum.inl s) => if s = "" then [none] else [some s]
  | some (Sum.inr l) => l.map some

/-- The `effectiveToolName` computation: truthy `mcpName` and truthy
`toolName` give the composite `mcp__tool`; truthy `mcpName` alone gives the
server wildcard `mcp__*`; otherwise the `toolName` is used as-is. -/
def effectiveToolName (mcpName toolName : Option String) : Option String :=
  if isTruthy mcpName && isTruthy toolName then
    some (mcpName.getD "" ++ "__" ++ toolName.getD "")
  else if isTruthy mcpName then
    some (mcpName.getD "" ++ "__*")
  else
    toolName

/-- Build one compiled rule from an entry and one normalized tool name.
A truthy `argsPattern` is compiled with `new RegExp`; a compilation failure
(`regexOk p = false`) throws, modelled as `none`. -/
def buildRule (regexOk : String → Bool) (tier : ℚ) (e : PolicyRuleEntry)
    (tn : Option String) : Option PolicyRule :=
  let base : PolicyRule :=
    { toolName := effectiveToolName e.mcpName tn
      argsPattern := none
      decision := e.decision
      priority := transformPriority e.priority tier }
  match e.argsPattern with
  | none => some base
  | some p =>
      if p = "" then some base
      else if regexOk p then some { base with argsPattern := some p }
      else none

/-- Left-to-right short-circuiting map over `Option`, modelling that a JS
exception thrown while building one rule aborts the enclosing computation. -/
def mapOpt (f : α → Option β) : List α → Option (List β)
  | [] => some []
  | a :: as =>
      match f a, mapOpt f as with
      | some b, some bs => some (b :: bs)
      | _, _ => none

/-- Expansion of one (mode-filtered) rule entry into compiled rules, one per
normalized tool name. -/
def expandEntry (regexOk : String → Bool) (tier : ℚ) (e : PolicyRuleEntry) :
    Option (List PolicyRule) :=
  mapOpt (buildRule regexOk tier e) (toolNamesOf e.toolName)

/-- Processing of one validated policy file's entries: filter by the active
approval mode, then expand every surviving entry; a thrown regex-compilation
error anywhere makes the whole file contribute nothing (the exception is
caught by the per-file `catch`). -/
def processFile (regexOk : String → Bool) (approvalMode : String) (tier : ℚ)
    (entries : List PolicyRuleEntry) : Option (List PolicyRule) :=
  (mapOpt (expandEntry regexOk tier)
      (entries.filter (fun e => modeApplies e.modes approvalMode))).map List.flatten

/-- One entry of a directory listing, keeping what the loader inspects:
the name and whether it is a regular file (`withFileTypes: true`). -/
structure DirEntry where
  name : String
  isFile : Bool
deriving DecidableEq, Repr

/-- Result of `fs.readdir` on a directory: `ENOENT` (missing directory,
silently skipped), another error (logged, skipped), or a listing. -/
inductive ReadDirResult where
  | enoent
  | error
  | ok (entries : List DirEntry)
deriving DecidableEq, Repr

/-- Result of reading, TOML-parsing and zod-validating one policy file:
`ENOENT` (silently ignored), any read/parse/validation failure (logged,
file skipped), or the validated rule entries. -/
inductive FileRead where
  | enoent
  | parseFail
  | ok (entries : List PolicyRuleEntry)
deriving DecidableEq, Repr

/-- The file system as the loader observes it. -/
structure PolicyFS where
  readdir : String → ReadDirResult
  readFile : String → String → FileRead

/-- Error log events emitted by the loader (`console.error` calls). -/
inductive LogEvent where
  | dirError (dir : String)
  | fileError (dir : String) (file : String)
deriving DecidableEq, Repr

/-- Loading of one policy file: `ENOENT` is ignored; a read/parse/validation
failure, or a regex-compilation exception, logs one file error and
contributes no rules. -/
def loadFile (regexOk : String → Bool) (approvalMode : String) (tier : ℚ)
    (fs : PolicyFS) (dir file : String) : List PolicyRule × List LogEvent :=
  match fs.readFile dir file with
  | FileRead.enoent => ([], [])
  | FileRead.parseFail => ([], [LogEvent.fileError dir file])
  | FileRead.ok entries =>
      match processFile regexOk approvalMode tier entries with
      | some rules => (rules, [])
      | none => ([], [LogEvent.fileError dir file])

/-- Loading of one tier directory: list the directory, keep the regular
files whose names end in `.toml`, and load each in order. A missing
directory (`ENOENT`) contributes nothing silently; another `readdir` error
logs one directory error and is skipped. -/
def loadDir (regexOk : String → Bool) (approvalMode : String) (d : PolicyDirs)
    (fs : PolicyFS) (dir : String) : List PolicyRule × List LogEvent :=
  let tier := getPolicyTier d dir
  match fs.readdir dir with
  | ReadDirResult.enoent => ([], [])
  | ReadDirResult.error => ([], [LogEvent.dirError dir])
  | ReadDirResult.ok entries =>
      let files :=
        (entries.filter (fun e => e.isFile && strEndsWith e.name ".toml")).map
          (fun e => e.name)
      files.foldl
        (fun acc f =>
          let r := loadFile regexOk approvalMode tier fs dir f
          (acc.1 ++ r.1, acc.2 ++ r.2))
        ([], [])

/-- `loadPoliciesFromConfig`: iterate over the supplied policy directories,
accumulating rules (and error logs). -/
def loadPoliciesFromConfig (regexOk : String → Bool) (approvalMode : String)
    (d : PolicyDirs) (fs : PolicyFS) (policyDirs : List String) :
    List PolicyRule × List LogEvent :=
  policyDirs.foldl
    (fun acc dir =>
      let r := loadDir regexOk approvalMode d fs dir
      (acc.1 ++ r.1, acc.2 ++ r.2))
    ([], [])

/-- The slice of an MCP server's settings entry the synthesizer inspects. -/
structure McpServerConfig where
  trust : Option Bool
deriving DecidableEq, Repr

/-- The slice of `Settings` read by `createPolicyEngineConfig`:
`mcp.allowed`, `mcp.excluded`, `mcpServers` (as an entry list),
`tools.allowed`, `tools.exclude`. -/
structure Settings where
  mcpAllowed : Option (List String)
  mcpExcluded : Option (List String)
  mcpServers : Option (List (String × McpServerConfig))
  toolsAllowed : Option (List String)
  toolsExclude : Option (List String)
deriving DecidableEq, Repr

/-- The rules `createPolicyEngineConfig` pushes from settings, in source
order: allowed MCP servers (ALLOW 85), trusted MCP servers (ALLOW 90),
allowed tools (ALLOW 100), excluded tools (DENY 200), excluded MCP servers
(DENY 195). These priorities are pushed as-is, without the tier
transformation. -/
def settingsRules (s : Settings) : List PolicyRule :=
  ((s.mcpAllowed.getD []).map fun serverName =>
    { toolName := some (serverName ++ "__*")
      argsPattern := none
      decision := PolicyDecision.allow
      priority := 85 })
  ++ (((s.mcpServers.getD []).filter fun p => p.2.trust = some true).map fun p =>
    { toolName := some (p.1 ++ "__*")
      argsPattern := none
      decision := PolicyDecision.allow
      priority := 90 })
  ++ ((s.toolsAllowed.getD []).map fun tool =>
    { toolName := some tool
      argsPattern := none
      decision := PolicyDecision.allow
      priority := 100 })
  ++ ((s.toolsExclude.getD []).map fun tool =>
    { toolName := some tool
      argsPattern := none
      decision := PolicyDecision.deny
      priority := 200 })
  ++ ((s.mcpExcluded.getD []).map fun serverName =>
    { toolName := some (serverName ++ "__*")
      argsPattern := none
      decision := PolicyDecision.deny
      priority := 195 })

/-- `createPolicyEngineConfig`: load the TOML rules from the three tier
directories, append the settings-synthesized rules, and fix
`defaultDecision` to `ASK_USER`. The log events are returned alongside. -/
def createPolicyEngineConfig (regexOk : String → Bool) (s : Settings)
    (approvalMode : String) (d : PolicyDirs) (fs : PolicyFS) :
    PolicyEngineConfig × List LogEvent :=
  let loaded :=
    loadPoliciesFromConfig regexOk approvalMode d fs (getPolicyDirectories d)
  ({ rules := loaded.1 ++ settingsRules s
     defaultDecision := PolicyDecision.ask_user },
   loaded.2)

/-- The rule object `createPolicyUpdater`'s subscription handler passes to
`policyEngine.addRule` for an `UPDATE_POLICY` message carrying `toolName`:
`{ toolName, decision: ALLOW, priority: 2.95 }`. -/
def updatePolicyRule (toolName : String) : PolicyRule :=
  { toolName := some toolName
    argsPattern := none
    decision := PolicyDecision.allow
    priority := 2.95 }

/-- An `UPDATE_POLICY` message payload. -/
structure UpdatePolicy where
  toolName : String
deriving DecidableEq, Repr

/-- Modelled from the spec: `PolicyEngine.addRule` (the engine lives outside
this repository slice; §4.6 and §3 state that the only runtime mutation is
appending the new compiled rule to the compiled set). -/
def addRule (cfg : PolicyEngineConfig) (r : PolicyRule) : PolicyEngineConfig :=
  { cfg with rules := cfg.rules ++ [r] }

/-- The effect on the engine configuration of delivering one
`UPDATE_POLICY` message to the handler registered by `createPolicyUpdater`:
it calls `addRule` with `updatePolicyRule msg.toolName`. -/
def policyUpdaterHandler (msg : UpdatePolicy) (cfg : PolicyEngineConfig) :
    PolicyEngineConfig :=
  addRule cfg (updatePolicyRule msg.toolName)

/-- Modelled from the spec: the pattern matcher (§4.4) — exact string
equality, or, when the pattern ends in the wildcard marker `*`, prefix
equality against the literal prefix. -/
def matchesPattern (identity pattern : String) : Bool :=
  if strEndsWith pattern "*" then strStartsWith identity (strDropLast pattern)
  else identity = pattern

/-- A request to `evaluate` (§4.5): the bare tool identity, the optional
MCP server name, and the canonical argument text. (Mode filtering has
already been applied at load time in this repository slice, so compiled
rules carry no mode set.) -/
structure PolicyRequest where
  toolIdentity : String
  mcpServerName : Option String
  argsText : String
deriving DecidableEq, Repr

/-- Modelled from the spec: name matching in `evaluate` step 2 — the bare
name is tried, and, when an MCP server name is supplied, the composite
`server__tool` form as well. -/
def identityMatches (req : PolicyRequest) (pattern : String) : Bool :=
  matchesPattern req.toolIdentity pattern ||
    (match req.mcpServerName with
     | some s => matchesPattern (s ++ "__" ++ req.toolIdentity) pattern
     | none => false)

/-- Modelled from the spec: whether one compiled rule matches a request —
the tool-name pattern matches (a rule with no tool name is the universal
allow-all form and matches everything) and the args pattern, if present,
matches the canonical argument text (`regexMatch pattern text`). -/
def ruleMatches (regexMatch : String → String → Bool) (req : PolicyRequest)
    (r : PolicyRule) : Bool :=
  (match r.toolName with
   | none => true
   | some p => identityMatches req p) &&
  (match r.argsPattern with
   | none => true
   | some p => regexMatch p req.argsText)

/-- Modelled from the spec: selection of the matching rule with the highest
compiled priority (§4.5 step 4); on ties the earlier rule is kept
(insertion order, the observed behavior §9 records). -/
def pickHighest : List PolicyRule → Option PolicyRule :=
  List.foldl
    (fun best r =>
      match best with
      | none => some r
      | some b => if r.priority > b.priority then some r else some b)
    none

/-- Modelled from the spec: `evaluate` (§4.5) — among the rules matching
the request, return the decision of the one with the highest compiled
priority; with no match, return `defaultDecision`. -/
def evaluate (regexMatch : String → String → Bool) (cfg : PolicyEngineConfig)
    (req : PolicyRequest) : PolicyDecision :=
  match pickHighest (cfg.rules.filter (ruleMatches regexMatch req)) with
  | none => cfg.defaultDecision
  | some r => r.decision

/-! Concrete fixtures used by counterexamples and witnesses. -/

/-- A regex-compilation oracle under which every pattern compiles. -/
def regexAll : String → Bool := fun _ => true

/-- An args matcher that accepts everything. -/
def matchAll : String → String → Bool := fun _ _ => true

/-- Resolved tier directories named D / U / A. -/
def dirs0 : PolicyDirs :=
  { defaultDir := "D"
    userDir := "U"
    adminDir := "A" }

/-- A file system with no policy directories at all. -/
def emptyFS : PolicyFS :=
  { readdir := fun _ => ReadDirResult.enoent
    readFile := fun _ _ => FileRead.enoent }

/-- Settings with every policy-relevant field absent. -/
def sEmpty : Settings :=
  { mcpAllowed := none
    mcpExcluded := none
    mcpServers := none
    toolsAllowed := none
    toolsExclude := none }

/-- Settings that explicitly allow the tool `write_file`. -/
def sAllowWrite : Settings :=
  { sEmpty with toolsAllowed := some ["write_file"] }

/-- Settings that both allow and exclude `write_file` (Scenario B). -/
def sB : Settings :=
  { sEmpty with
      toolsAllowed := some ["write_file"]
      toolsExclude := some ["write_file"] }

/-- Settings that trust the MCP server `github` but exclude its tool
`github__create_issue` (Scenario C). -/
def sC : Settings :=
  { sEmpty with
      mcpServers := some [("github", { trust := some true })]
      toolsExclude := some ["github__create_issue"] }

/-- A file system whose admin directory holds one policy file with a DENY
rule for `write_file` at declared priority 5. -/
def fsAdminDenyWrite : PolicyFS :=
  { readdir := fun dir =>
      if dir = "A" then ReadDirResult.ok [⟨"a.toml", true⟩]
      else ReadDirResult.enoent
    readFile := fun dir file =>
      if dir = "A" ∧ file = "a.toml" then
        FileRead.ok
          [{ toolName := some (Sum.inl "write_file")
             mcpName := none
             argsPattern := none
             decision := PolicyDecision.deny
             priority := 5
             modes := none }]
      else FileRead.enoent }

/-- A file system whose user directory holds one policy file with an ALLOW
rule at declared priority 1500 (at or above the 1000 bound). -/
def fsUser1500 : PolicyFS :=
  { readdir := fun dir =>
      if dir = "U" then ReadDirResult.ok [⟨"u.toml", true⟩]
      else ReadDirResult.enoent
    readFile := fun dir file =>
      if dir = "U" ∧ file = "u.toml" then
        FileRead.ok
          [{ toolName := some (Sum.inl "x")
             mcpName := none
             argsPattern := none
             decision := PolicyDecision.allow
             priority := 1500
             modes := none }]
      else FileRead.enoent }

/-- A regex-compilation oracle under which exactly the pattern `(` fails to
compile (as `new RegExp("(")` throws). -/
def regexNoParen : String → Bool := fun p => p != "("

/-- A rule entry whose args pattern `(` fails to compile. -/
def eBadPattern : PolicyRuleEntry :=
  { toolName := some (Sum.inl "t1")
    mcpName := none
    argsPattern := some "("
    decision := PolicyDecision.allow
    priority := 10
    modes := none }

/-- A well-formed rule entry for tool `t2`. -/
def eGoodT2 : PolicyRuleEntry :=
  { toolName := some (Sum.inl "t2")
    mcpName := none
    argsPattern := none
    decision := PolicyDecision.allow
    priority := 20
    modes := none }

/-- A well-formed rule entry for tool `t3`. -/
def eGoodT3 : PolicyRuleEntry :=
  { toolName := some (Sum.inl "t3")
    mcpName := none
    argsPattern := none
    decision := PolicyDecision.allow
    priority := 30
    modes := none }

/-- A file system whose user directory holds `a.toml` (a bad-pattern rule
followed by a good rule) and `b.toml` (one good rule). -/
def fsBadPattern : PolicyFS :=
  { readdir := fun dir =>
      if dir = "U" then ReadDirResult.ok [⟨"a.toml", true⟩, ⟨"b.toml", true⟩]
      else ReadDirResult.enoent
    readFile := fun dir file =>
      if dir = "U" ∧ file = "a.toml" then FileRead.ok [eBadPattern, eGoodT2]
      else if dir = "U" ∧ file = "b.toml" then FileRead.ok [eGoodT3]
      else FileRead.enoent }

/-! Theorems. -/

/-- Unfolding of the loader's accumulating fold: the result is the initial
accumulator followed by the concatenated per-element contributions. -/
theorem foldl_append_pair {α β γ : Type} (f : α → List β × List γ) :
    ∀ (l : List α) (acc : List β × List γ),
      l.foldl (fun acc x => (acc.1 ++ (f x).1, acc.2 ++ (f x).2)) acc =
        (acc.1 ++ (l.map fun x => (f x).1).flatten,
         acc.2 ++ (l.map fun x => (f x).2).flatten)
  | [], acc => by simp
  | a :: as, acc => by
      simp [List.foldl_cons, foldl_append_pair f as]

/-- The pair of rules and logs produced by `loadPoliciesFromConfig` is the
concatenation of the per-directory results of `loadDir`. -/
theorem loadPolicies_flatten (regexOk : String → Bool) (mode : String)
    (d : PolicyDirs) (fs : PolicyFS) (dirs : List String) :
    loadPoliciesFromConfig regexOk mode d fs dirs =
      ((dirs.map fun dir => (loadDir regexOk mode d fs dir).1).flatten,
       (dirs.map fun dir => (loadDir regexOk mode d fs dir).2).flatten) := by
  unfold loadPoliciesFromConfig
  exact foldl_append_pair (fun dir => loadDir regexOk mode d fs dir) dirs ([], [])

/-- Characterization of a successful `buildRule`. -/
theorem buildRule_eq (regexOk : String → Bool) (tier : ℚ)
    (e : PolicyRuleEntry) (tn : Option String) (r : PolicyRule)
    (h : buildRule regexOk tier e tn = some r) :
    r.toolName = effectiveToolName e.mcpName tn ∧
    r.decision = e.decision ∧
    r.priority = transformPriority e.priority tier ∧
    r.argsPattern = (match e.argsPattern with
      | none => none
      | some p => if p = "" then none else some p) := by
  unfold buildRule at h
  cases hap : e.argsPattern with
  | none =>
      simp only [hap] at h
      cases h
      simp
  | some p =>
      simp only [hap] at h
      by_cases hp : p = ""
      · rw [if_pos hp] at h
        cases h
        simp [hp]
      · rw [if_neg hp] at h
        by_cases hok : regexOk p
        · rw [if_pos hok] at h
          cases h
          simp [hp]
        · rw [if_neg hok] at h
          cases h

/-- Characterization of a successful `mapOpt`: the lengths agree and every
output element is the image of some input element. -/
theorem mapOpt_some {α β : Type} (f : α → Option β) :
    ∀ (l : List α) (bl : List β), mapOpt f l = some bl →
      bl.length = l.length ∧ ∀ b ∈ bl, ∃ a ∈ l, f a = some b
  | [], bl => by
      intro h
      unfold mapOpt at h
      cases h
      simp
  | a :: as, bl => by
      intro h
      unfold mapOpt at h
      cases hfa : f a with
      | none => rw [hfa] at h; cases h
      | some b =>
          rw [hfa] at h
          cases hrest : mapOpt f as with
          | none => rw [hrest] at h; cases h
          | some bs =>
              rw [hrest] at h
              cases h
              have ih := mapOpt_some f as bs hrest
              refine ⟨by simp [ih.1], ?_⟩
              intro b' hb'
              rcases List.mem_cons.mp hb' with hb' | hb'
              · exact ⟨a, List.mem_cons_self a as, by rw [← hb'] at hfa; exact hfa⟩
              · rcases ih.2 b' hb' with ⟨a', ha', hfa'⟩
                exact ⟨a', List.mem_cons_of_mem a ha', hfa'⟩

/-- Every rule in `settingsRules` is either an ALLOW at priority 85, 90 or
100, or a DENY at priority 195 or 200. -/
theorem mem_settingsRules (s : Settings) (r : PolicyRule)
    (hr : r ∈ settingsRules s) :
    (r.decision = PolicyDecision.allow ∧
      (r.priority = 85 ∨ r.priority = 90 ∨ r.priority = 100)) ∨
    (r.decision = PolicyDecision.deny ∧
      (r.priority = 195 ∨ r.priority = 200)) := by
  simp only [settingsRules, List.mem_append, List.mem_map, List.mem_filter] at hr
  rcases hr with ((((⟨n, _, he⟩ | ⟨p, _, he⟩) | ⟨t, _, he⟩) | ⟨t, _, he⟩) |
    ⟨n, _, he⟩) <;> subst he <;> simp

/-- C1: `createPolicyEngineConfig` always produces `defaultDecision =
ASK_USER`, and a request matched by no compiled rule evaluates to ASK_USER
(in particular never to ALLOW). -/
theorem C1_fail_closed (regexOk : String → Bool) (s : Settings)
    (mode : String) (d : PolicyDirs) (fs : PolicyFS)
    (regexMatch : String → String → Bool) (req : PolicyRequest)
    (hnone : ((createPolicyEngineConfig regexOk s mode d fs).1.rules.filter
      (ruleMatches regexMatch req)) = []) :
    (createPolicyEngineConfig regexOk s mode d fs).1.defaultDecision =
      PolicyDecision.ask_user ∧
    evaluate regexMatch (createPolicyEngineConfig regexOk s mode d fs).1 req =
      PolicyDecision.ask_user ∧
    evaluate regexMatch (createPolicyEngineConfig regexOk s mode d fs).1 req ≠
      PolicyDecision.allow := by
  have hev : evaluate regexMatch
      (createPolicyEngineConfig regexOk s mode d fs).1 req =
      PolicyDecision.ask_user := by
    unfold evaluate
    rw [hnone]
    rfl
  exact ⟨rfl, hev, by rw [hev]; decide⟩

/-- C1 witness: with empty settings and no policy directories, no rule
matches any request, and evaluation of `run_shell_command` returns
ASK_USER. -/
theorem C1_fail_closed_witness :
    ((createPolicyEngineConfig regexAll sEmpty "default" dirs0 emptyFS).1.rules.filter
      (ruleMatches matchAll ⟨"run_shell_command", none, ""⟩) = []) ∧
    evaluate matchAll (createPolicyEngineConfig regexAll sEmpty "default" dirs0 emptyFS).1
      ⟨"run_shell_command", none, ""⟩ = PolicyDecision.ask_user :=
  ⟨by rfl,
   (C1_fail_closed regexAll sEmpty "default" dirs0 emptyFS matchAll
      ⟨"run_shell_command", none, ""⟩ (by rfl)).2.1⟩

/-- C2 counterexample: with settings allowing `write_file` and an
Admin-directory DENY rule for `write_file` at declared priority 5, the
compiled rule set holds the Admin rule at priority `transformPriority 5 3 =
3.005` and the settings rule at 100; the Admin rule's compiled priority is
NOT strictly higher, and evaluation returns ALLOW (the settings rule wins),
refuting the claim that Admin-tier rules outrank settings-synthesized
rules. -/
theorem C2_counterexample :
    (createPolicyEngineConfig regexAll sAllowWrite "default" dirs0 fsAdminDenyWrite).1.rules =
      [{ toolName := some "write_file"
         argsPattern := none
         decision := PolicyDecision.deny
         priority := transformPriority 5 3 },
       { toolName := some "write_file"
         argsPattern := none
         decision := PolicyDecision.allow
         priority := 100 }] ∧
    ¬ (100 : ℚ) < transformPriority 5 3 ∧
    evaluate matchAll
      (createPolicyEngineConfig regexAll sAllowWrite "default" dirs0 fsAdminDenyWrite).1
      ⟨"write_file", none, ""⟩ = PolicyDecision.allow := by
  refine ⟨?_, by norm_num [transformPriority], ?_⟩ <;>
    norm_num +decide [createPolicyEngineConfig, loadPoliciesFromConfig,
      getPolicyDirectories, loadDir, loadFile, processFile, mapOpt,
      expandEntry, buildRule, toolNamesOf, effectiveToolName, modeApplies,
      settingsRules, getPolicyTier, transformPriority, strEndsWith,
      sAllowWrite, sEmpty, dirs0, fsAdminDenyWrite, regexAll, matchAll,
      evaluate, pickHighest, ruleMatches, identityMatches, matchesPattern,
      strStartsWith, strDropLast]

/-- C2 amended: settings-synthesized rules carry their table priorities
(85–200) untransformed, so they strictly outrank every Admin-tier rule with
declared priority below 1000 — the Admin-tier rule never has the higher
compiled priority against them. -/
theorem C2_amended (s : Settings) (r : PolicyRule) (hr : r ∈ settingsRules s)
    (p : ℚ) (hp : p < 1000) :
    transformPriority p 3 < r.priority := by
  have hdiv : p / 1000 < 1 := by
    rw [div_lt_one (by norm_num)]
    exact hp
  have h85 : (85 : ℚ) ≤ r.priority := by
    rcases mem_settingsRules s r hr with ⟨_, h | h | h⟩ | ⟨_, h | h⟩ <;>
      rw [h] <;> norm_num
  have : transformPriority p 3 < 4 := by
    simp only [transformPriority]
    linarith
  linarith

/-- C2 amended witness: the settings ALLOW rule for `write_file` (priority
100) outranks an Admin rule of declared priority 5. -/
theorem C2_amended_witness :
    ({ toolName := some "write_file"
       argsPattern := none
       decision := PolicyDecision.allow
       priority := 100 } : PolicyRule) ∈ settingsRules sAllowWrite ∧
    (5 : ℚ) < 1000 ∧
    transformPriority 5 3 <
      ({ toolName := some "write_file"
         argsPattern := none
         decision := PolicyDecision.allow
         priority := 100 } : PolicyRule).priority :=
  ⟨by simp [settingsRules, sAllowWrite, sEmpty], by norm_num,
   C2_amended sAllowWrite _ (by simp [settingsRules, sAllowWrite, sEmpty])
     5 (by norm_num)⟩

/-- C3 counterexample: declared priorities may be negative, and the claim's
side condition (every declared priority `< 1000`) does not exclude them; a
User-directory rule declared at -1500 compiles to 0.5, strictly below the
Default-directory compilation of declared 10 (1.010), refuting the claimed
tier separation under `< 1000` alone. -/
theorem C3_counterexample :
    (-1500 : ℚ) < 1000 ∧ (10 : ℚ) < 1000 ∧
    transformPriority (-1500) 2 < transformPriority 10 1 := by
  norm_num [transformPriority]

/-- C3 amended: a rule declared at priority `p` in a tier-`t` directory
compiles to `t + p/1000` (Default 10 → 1.010, Admin 5 → 3.005), and, when
every declared priority is at least 0 and strictly below 1000, compiled
priorities strictly separate by tier: Admin above User above Default. -/
theorem C3_amended (p t pd pu pa : ℚ)
    (hd0 : 0 ≤ pd) (hd : pd < 1000) (hu0 : 0 ≤ pu) (hu : pu < 1000)
    (ha0 : 0 ≤ pa) (ha : pa < 1000) :
    transformPriority p t = t + p / 1000 ∧
    transformPriority 10 1 = 1.010 ∧
    transformPriority 5 3 = 3.005 ∧
    transformPriority pd 1 < transformPriority pu 2 ∧
    transformPriority pu 2 < transformPriority pa 3 := by
  have h1 : pd / 1000 < 1 := by rw [div_lt_one (by norm_num)]; exact hd
  have h2 : pu / 1000 < 1 := by rw [div_lt_one (by norm_num)]; exact hu
  have h3 : (0 : ℚ) ≤ pu / 1000 := by positivity
  have h4 : (0 : ℚ) ≤ pa / 1000 := by positivity
  refine ⟨rfl, by norm_num [transformPriority], by norm_num [transformPriority],
    ?_, ?_⟩ <;> simp only [transformPriority] <;> linarith

/-- C3 amended witness: Default declared 10 versus User declared 0 versus
Admin declared 999. -/
theorem C3_amended_witness :
    (0 : ℚ) ≤ 10 ∧ (10 : ℚ) < 1000 ∧ (0 : ℚ) ≤ 0 ∧ (0 : ℚ) < 1000 ∧
    (0 : ℚ) ≤ 999 ∧ (999 : ℚ) < 1000 ∧
    transformPriority 10 1 < transformPriority 0 2 ∧
    transformPriority 0 2 < transformPriority 999 3 :=
  ⟨by norm_num, by norm_num, by norm_num, by norm_num, by norm_num, by norm_num,
   (C3_amended 0 0 10 0 999 (by norm_num) (by norm_num) (by norm_num)
     (by norm_num) (by norm_num) (by norm_num)).2.2.2.1,
   (C3_amended 0 0 10 0 999 (by norm_num) (by norm_num) (by norm_num)
     (by norm_num) (by norm_num) (by norm_num)).2.2.2.2⟩

/-- C4 counterexample: the injected "always allow" rule does carry priority
2.95, but 2.95 is neither below every Admin-tier compiled priority (Admin
declared -100 compiles to 2.9 < 2.95) nor above every other User-tier rule
(User declared 960, still < 1000, compiles to 2.96 > 2.95). -/
theorem C4_counterexample :
    (updatePolicyRule "replace").priority = 2.95 ∧
    (updatePolicyRule "replace").priority < transformPriority 960 2 ∧
    transformPriority (-100) 3 < (updatePolicyRule "replace").priority := by
  norm_num [updatePolicyRule, transformPriority]

/-- C4 amended: delivering an UPDATE_POLICY message for tool `T` calls
`addRule` with exactly `{ toolName := T, decision := ALLOW, priority :=
2.95 }`; 2.95 is strictly below the compiled priority of every Admin-tier
rule with non-negative declared priority, and strictly above the compiled
priority of every User-directory rule with declared priority below 950. -/
theorem C4_amended (T : String) (cfg : PolicyEngineConfig) (pa pu : ℚ)
    (ha : 0 ≤ pa) (hu : pu < 950) :
    policyUpdaterHandler ⟨T⟩ cfg =
      addRule cfg
        { toolName := some T
          argsPattern := none
          decision := PolicyDecision.allow
          priority := 2.95 } ∧
    (updatePolicyRule T).priority < transformPriority pa 3 ∧
    transformPriority pu 2 < (updatePolicyRule T).priority := by
  have h1 : (0 : ℚ) ≤ pa / 1000 := by positivity
  have h2 : pu / 1000 < 950 / 1000 := by
    rw [div_lt_div_iff_of_pos_right (by norm_num)]
    exact hu
  refine ⟨rfl, ?_, ?_⟩ <;>
    simp only [updatePolicyRule, transformPriority] <;> norm_num <;> linarith

/-- C4 amended witness: tool `replace`, Admin declared 5, User declared
949. -/
theorem C4_amended_witness :
    (0 : ℚ) ≤ 5 ∧ (949 : ℚ) < 950 ∧
    policyUpdaterHandler ⟨"replace"⟩ ⟨[], PolicyDecision.ask_user⟩ =
      addRule ⟨[], PolicyDecision.ask_user⟩
        { toolName := some "replace"
          argsPattern := none
          decision := PolicyDecision.allow
          priority := 2.95 } ∧
    (updatePolicyRule "replace").priority < transformPriority 5 3 ∧
    transformPriority 949 2 < (updatePolicyRule "replace").priority :=
  ⟨by norm_num, by norm_num,
   (C4_amended "replace" ⟨[], PolicyDecision.ask_user⟩ 5 949 (by norm_num)
     (by norm_num)).1,
   (C4_amended "replace" ⟨[], PolicyDecision.ask_user⟩ 5 949 (by norm_num)
     (by norm_num)).2.1,
   (C4_amended "replace" ⟨[], PolicyDecision.ask_user⟩ 5 949 (by norm_num)
     (by norm_num)).2.2⟩

/-- C5: the settings synthesizer emits exactly one ALLOW `server__*` rule
at 85 per server in `mcp.allowed`, one ALLOW `server__*` rule at 90 per
trusted server in `mcpServers`, one ALLOW rule at 100 per tool in
`tools.allowed`, one DENY rule at 200 per tool in `tools.exclude`, and one
DENY `server__*` rule at 195 per server in `mcp.excluded`; every
synthesized DENY priority strictly exceeds every synthesized ALLOW
priority, and in particular Scenario B (allow+exclude `write_file`) and
Scenario C (trusted `github`, excluded `github__create_issue`) both
evaluate to DENY. -/
theorem C5_settings_synthesizer (s : Settings) :
    ((settingsRules s).filter (fun r => decide (r.priority = (85 : ℚ))) =
      (s.mcpAllowed.getD []).map fun n =>
        { toolName := some (n ++ "__*")
          argsPattern := none
          decision := PolicyDecision.allow
          priority := 85 }) ∧
    ((settingsRules s).filter (fun r => decide (r.priority = (90 : ℚ))) =
      ((s.mcpServers.getD []).filter fun p => p.2.trust = some true).map fun p =>
        { toolName := some (p.1 ++ "__*")
          argsPattern := none
          decision := PolicyDecision.allow
          priority := 90 }) ∧
    ((settingsRules s).filter (fun r => decide (r.priority = (100 : ℚ))) =
      (s.toolsAllowed.getD []).map fun t =>
        { toolName := some t
          argsPattern := none
          decision := PolicyDecision.allow
          priority := 100 }) ∧
    ((settingsRules s).filter (fun r => decide (r.priority = (200 : ℚ))) =
      (s.toolsExclude.getD []).map fun t =>
        { toolName := some t
          argsPattern := none
          decision := PolicyDecision.deny
          priority := 200 }) ∧
    ((settingsRules s).filter (fun r => decide (r.priority = (195 : ℚ))) =
      (s.mcpExcluded.getD []).map fun n =>
        { toolName := some (n ++ "__*")
          argsPattern := none
          decision := PolicyDecision.deny
          priority := 195 }) ∧
    (∀ r₁ ∈ settingsRules s, ∀ r₂ ∈ settingsRules s,
      r₁.decision = PolicyDecision.deny → r₂.decision = PolicyDecision.allow →
      r₂.priority < r₁.priority) ∧
    evaluate matchAll
      (createPolicyEngineConfig regexAll sB "default" dirs0 emptyFS).1
      ⟨"write_file", none, ""⟩ = PolicyDecision.deny ∧
    evaluate matchAll
      (createPolicyEngineConfig regexAll sC "default" dirs0 emptyFS).1
      ⟨"create_issue", some "github", ""⟩ = PolicyDecision.deny := by
  refine ⟨?_, ?_, ?_, ?_, ?_, ?_, ?_, ?_⟩
  · simp [settingsRules, List.filter_append, List.filter_map, Function.comp_def]
  · simp [settingsRules, List.filter_append, List.filter_map, Function.comp_def]
  · simp [settingsRules, List.filter_append, List.filter_map, Function.comp_def]
  · simp [settingsRules, List.filter_append, List.filter_map, Function.comp_def]
  · simp [settingsRules, List.filter_append, List.filter_map, Function.comp_def]
  · intro r₁ h₁ r₂ h₂ hd ha
    rcases mem_settingsRules s r₁ h₁ with ⟨h, _⟩ | ⟨_, hp₁ | hp₁⟩
    · rw [hd] at h; cases h
    all_goals
      rcases mem_settingsRules s r₂ h₂ with ⟨_, hp₂ | hp₂ | hp₂⟩ | ⟨h, _⟩ <;>
        first
          | (rw [ha] at h; cases h)
          | (rw [hp₁, hp₂]; norm_num)
  · norm_num +decide [evaluate, createPolicyEngineConfig,
      loadPoliciesFromConfig, getPolicyDirectories, loadDir, settingsRules,
      sB, sEmpty, emptyFS, dirs0, regexAll, matchAll, pickHighest,
      ruleMatches, identityMatches, matchesPattern, strEndsWith,
      strStartsWith, strDropLast]
  · norm_num +decide [evaluate, createPolicyEngineConfig,
      loadPoliciesFromConfig, getPolicyDirectories, loadDir, settingsRules,
      sC, sEmpty, emptyFS, dirs0, regexAll, matchAll, pickHighest,
      ruleMatches, identityMatches, matchesPattern, strEndsWith,
      strStartsWith, strDropLast]

/-- C5 witness: in Scenario B's settings, the DENY 200 rule and the ALLOW
100 rule for `write_file` are both synthesized, and the ALLOW priority is
strictly below the DENY priority. -/
theorem C5_settings_synthesizer_witness :
    ({ toolName := some "write_file"
       argsPattern := none
       decision := PolicyDecision.deny
       priority := 200 } : PolicyRule) ∈ settingsRules sB ∧
    ({ toolName := some "write_file"
       argsPattern := none
       decision := PolicyDecision.allow
       priority := 100 } : PolicyRule) ∈ settingsRules sB ∧
    ({ toolName := some "write_file"
       argsPattern := none
       decision := PolicyDecision.allow
       priority := 100 } : PolicyRule).priority <
      ({ toolName := some "write_file"
         argsPattern := none
         decision := PolicyDecision.deny
         priority := 200 } : PolicyRule).priority :=
  ⟨by simp [settingsRules, sB, sEmpty],
   by simp [settingsRules, sB, sEmpty],
   (C5_settings_synthesizer sB).2.2.2.2.2.1 _
     (by simp [settingsRules, sB, sEmpty]) _
     (by simp [settingsRules, sB, sEmpty]) rfl rfl⟩

/-- C6: the loader applies no bound to declared priorities — a User-tier
rule declared at 1500 is neither rejected nor clamped; it loads unchanged
and compiles to 3.5, strictly above an Admin-tier rule declared at 5
(3.005), inverting tier precedence exactly as the claim says must not
happen. -/
theorem C6_priority_unguarded :
    (loadPoliciesFromConfig regexAll "default" dirs0 fsUser1500
        (getPolicyDirectories dirs0)).1 =
      [{ toolName := some "x"
         argsPattern := none
         decision := PolicyDecision.allow
         priority := transformPriority 1500 2 }] ∧
    transformPriority 1500 2 = 3.5 ∧
    transformPriority 5 3 < transformPriority 1500 2 := by
  refine ⟨?_, by norm_num [transformPriority], by norm_num [transformPriority]⟩
  norm_num +decide [loadPoliciesFromConfig, getPolicyDirectories, loadDir,
    loadFile, processFile, mapOpt, expandEntry, buildRule, toolNamesOf,
    effectiveToolName, modeApplies, getPolicyTier, strEndsWith, dirs0,
    fsUser1500, regexAll, transformPriority]

/-- C7 counterexample: with `a.toml` holding a rule whose args pattern `(`
fails to compile followed by a good rule for `t2`, and `b.toml` holding a
good rule for `t3`, loading yields only the `t3` rule and one error log for
`a.toml`: the good `t2` rule of the same file is dropped along with the bad
one, refuting the claim that only the single failing rule is dropped. -/
theorem C7_counterexample :
    loadPoliciesFromConfig regexNoParen "default" dirs0 fsBadPattern
        (getPolicyDirectories dirs0) =
      ([{ toolName := some "t3"
          argsPattern := none
          decision := PolicyDecision.allow
          priority := transformPriority 30 2 }],
       [LogEvent.fileError "U" "a.toml"]) := by
  norm_num +decide [loadPoliciesFromConfig, getPolicyDirectories, loadDir,
    loadFile, processFile, mapOpt, expandEntry, buildRule, toolNamesOf,
    effectiveToolName, modeApplies, getPolicyTier, strEndsWith, dirs0,
    fsBadPattern, eBadPattern, eGoodT2, eGoodT3, regexNoParen,
    transformPriority]

/-- C7 amended: a failed args-pattern compilation is caught by the
per-file handler, so the failing rule's entire file is dropped (with one
log message) while loading continues: every other file of the directory
still contributes its rules, and the overall result is the concatenation
of the per-directory contributions, so other directories are unaffected. -/
theorem C7_amended (regexOk : String → Bool) (mode : String)
    (dcfg : PolicyDirs) (fs : PolicyFS) (dir : String)
    (es₁ es₂ : List PolicyRuleEntry) (rs₂ : List PolicyRule)
    (hdir : fs.readdir dir = ReadDirResult.ok [⟨"a.toml", true⟩, ⟨"b.toml", true⟩])
    (h₁ : fs.readFile dir "a.toml" = FileRead.ok es₁)
    (h₂ : fs.readFile dir "b.toml" = FileRead.ok es₂)
    (hfail : processFile regexOk mode (getPolicyTier dcfg dir) es₁ = none)
    (hok : processFile regexOk mode (getPolicyTier dcfg dir) es₂ = some rs₂) :
    loadDir regexOk mode dcfg fs dir =
      (rs₂, [LogEvent.fileError dir "a.toml"]) ∧
    ∀ dirs, loadPoliciesFromConfig regexOk mode dcfg fs dirs =
      ((dirs.map fun d => (loadDir regexOk mode dcfg fs d).1).flatten,
       (dirs.map fun d => (loadDir regexOk mode dcfg fs d).2).flatten) := by
  constructor
  · unfold loadDir
    rw [hdir]
    simp +decide [loadFile, h₁, h₂, hfail, hok, strEndsWith]
  · intro dirs
    exact loadPolicies_flatten regexOk mode dcfg fs dirs

/-- C7 amended witness: the concrete bad-pattern file system — `a.toml`
(bad pattern plus good `t2` rule) drops whole, `b.toml`'s `t3` rule loads,
and the single-directory load over `["U"]` is the concatenation of its
per-directory results. -/
theorem C7_amended_witness :
    loadDir regexNoParen "default" dirs0 fsBadPattern "U" =
      ([{ toolName := some "t3"
          argsPattern := none
          decision := PolicyDecision.allow
          priority := transformPriority 30 2 }],
       [LogEvent.fileError "U" "a.toml"]) ∧
    loadPoliciesFromConfig regexNoParen "default" dirs0 fsBadPattern ["U"] =
      (((["U"].map fun d => (loadDir regexNoParen "default" dirs0 fsBadPattern d).1).flatten),
       ((["U"].map fun d => (loadDir regexNoParen "default" dirs0 fsBadPattern d).2).flatten)) :=
  ⟨(C7_amended regexNoParen "default" dirs0 fsBadPattern "U"
      [eBadPattern, eGoodT2] [eGoodT3]
      [{ toolName := some "t3"
         argsPattern := none
         decision := PolicyDecision.allow
         priority := transformPriority 30 2 }]
      (by rfl) (by rfl) (by rfl)
      (by norm_num +decide [processFile, mapOpt, expandEntry, buildRule,
        toolNamesOf, effectiveToolName, modeApplies, eBadPattern, eGoodT2,
        regexNoParen])
      (by norm_num +decide [processFile, mapOpt, expandEntry, buildRule,
        toolNamesOf, effectiveToolName, modeApplies, getPolicyTier, dirs0,
        eGoodT3, regexNoParen, transformPriority])).1,
   (C7_amended regexNoParen "default" dirs0 fsBadPattern "U"
      [eBadPattern, eGoodT2] [eGoodT3]
      [{ toolName := some "t3"
         argsPattern := none
         decision := PolicyDecision.allow
         priority := transformPriority 30 2 }]
      (by rfl) (by rfl) (by rfl)
      (by norm_num +decide [processFile, mapOpt, expandEntry, buildRule,
        toolNamesOf, effectiveToolName, modeApplies, eBadPattern, eGoodT2,
        regexNoParen])
      (by norm_num +decide [processFile, mapOpt, expandEntry, buildRule,
        toolNamesOf, effectiveToolName, modeApplies, getPolicyTier, dirs0,
        eGoodT3, regexNoParen, transformPriority])).2 ["U"]⟩

/-- C8: a loaded rule's matchable identity is `M__T` when the entry has a
truthy mcpName `M` and toolName `T`, and the server wildcard `M__*` when it
has mcpName `M` and no toolName; an array-valued toolName expands into one
rule per element, all sharing the entry's decision, compiled priority and
(compiled) args pattern. -/
theorem C8_identity_and_expansion (regexOk : String → Bool) (tier : ℚ)
    (e : PolicyRuleEntry) (M T : String) (ts : List String)
    (l : List PolicyRule) :
    (e.mcpName = some M → e.toolName = some (Sum.inl T) → M ≠ "" → T ≠ "" →
      expandEntry regexOk tier e = some l →
      ∀ r ∈ l, r.toolName = some (M ++ "__" ++ T)) ∧
    (e.mcpName = some M → e.toolName = none → M ≠ "" →
      expandEntry regexOk tier e = some l →
      ∀ r ∈ l, r.toolName = some (M ++ "__*")) ∧
    (e.toolName = some (Sum.inr ts) →
      expandEntry regexOk tier e = some l →
      l.length = ts.length ∧
      ∀ r ∈ l, r.decision = e.decision ∧
        r.priority = transformPriority e.priority tier ∧
        r.argsPattern = (match e.argsPattern with
          | none => none
          | some p => if p = "" then none else some p)) := by
  refine ⟨?_, ?_, ?_⟩
  · intro hM hT hMne hTne hexp r hr
    unfold expandEntry at hexp
    rw [hT] at hexp
    simp only [toolNamesOf, if_neg hTne] at hexp
    rcases mapOpt_some _ _ _ hexp with ⟨-, hall⟩
    rcases hall r hr with ⟨tn, htn, hb⟩
    rcases List.mem_singleton.mp htn with rfl
    rw [(buildRule_eq regexOk tier e (some T) r hb).1, hM]
    simp [effectiveToolName, isTruthy, hMne, hTne]
  · intro hM hT hMne hexp r hr
    unfold expandEntry at hexp
    rw [hT] at hexp
    simp only [toolNamesOf] at hexp
    rcases mapOpt_some _ _ _ hexp with ⟨-, hall⟩
    rcases hall r hr with ⟨tn, htn, hb⟩
    rcases List.mem_singleton.mp htn with rfl
    rw [(buildRule_eq regexOk tier e none r hb).1, hM]
    simp [effectiveToolName, isTruthy, hMne]
  · intro hT hexp
    unfold expandEntry at hexp
    rw [hT] at hexp
    simp only [toolNamesOf] at hexp
    rcases mapOpt_some _ _ _ hexp with ⟨hlen, hall⟩
    refine ⟨by simpa using hlen, ?_⟩
    intro r hr
    rcases hall r hr with ⟨tn, -, hb⟩
    exact (buildRule_eq regexOk tier e tn r hb).2

/-- C8 witness: an entry with mcpName `github`, array toolName
`[create_issue, close_issue]` expands into the two composite rules, each at
the entry's compiled priority and decision; single-name and no-name cases
are checked on sibling entries. -/
theorem C8_identity_and_expansion_witness :
    (expandEntry regexAll 2
        { toolName := some (Sum.inl "create_issue")
          mcpName := some "github"
          argsPattern := none
          decision := PolicyDecision.allow
          priority := 50
          modes := none } =
      some [{ toolName := some "github__create_issue"
              argsPattern := none
              decision := PolicyDecision.allow
              priority := transformPriority 50 2 }]) ∧
    (∀ r ∈ [({ toolName := some "github__create_issue"
               argsPattern := none
               decision := PolicyDecision.allow
               priority := transformPriority 50 2 } : PolicyRule)],
      r.toolName = some ("github" ++ "__" ++ "create_issue")) ∧
    (expandEntry regexAll 2
        { toolName := none
          mcpName := some "github"
          argsPattern := none
          decision := PolicyDecision.deny
          priority := 60
          modes := none } =
      some [{ toolName := some "github__*"
              argsPattern := none
              decision := PolicyDecision.deny
              priority := transformPriority 60 2 }]) ∧
    (∀ r ∈ [({ toolName := some "github__*"
               argsPattern := none
               decision := PolicyDecision.deny
               priority := transformPriority 60 2 } : PolicyRule)],
      r.toolName = some ("github" ++ "__*")) ∧
    ([({ toolName := some "github__create_issue"
         argsPattern := none
         decision := PolicyDecision.allow
         priority := transformPriority 50 2 } : PolicyRule),
      { toolName := some "github__close_issue"
        argsPattern := none
        decision := PolicyDecision.allow
        priority := transformPriority 50 2 }].length = (["create_issue", "close_issue"] : List String).length ∧
     ∀ r ∈ [({ toolName := some "github__create_issue"
               argsPattern := none
               decision := PolicyDecision.allow
               priority := transformPriority 50 2 } : PolicyRule),
            { toolName := some "github__close_issue"
              argsPattern := none
              decision := PolicyDecision.allow
              priority := transformPriority 50 2 }],
       r.decision = PolicyDecision.allow ∧
       r.priority = transformPriority 50 2 ∧
       r.argsPattern = none) :=
  ⟨by simp +decide [expandEntry, mapOpt, buildRule, toolNamesOf,
      effectiveToolName, isTruthy, regexAll],
   (C8_identity_and_expansion regexAll 2
      { toolName := some (Sum.inl "create_issue")
        mcpName := some "github"
        argsPattern := none
        decision := PolicyDecision.allow
        priority := 50
        modes := none } "github" "create_issue" [] _).1
     rfl rfl (by decide) (by decide)
     (by simp +decide [expandEntry, mapOpt, buildRule, toolNamesOf,
       effectiveToolName, isTruthy, regexAll]),
   by simp +decide [expandEntry, mapOpt, buildRule, toolNamesOf,
      effectiveToolName, isTruthy, regexAll],
   (C8_identity_and_expansion regexAll 2
      { toolName := none
        mcpName := some "github"
        argsPattern := none
        decision := PolicyDecision.deny
        priority := 60
        modes := none } "github" "" [] _).2.1
     rfl rfl (by decide)
     (by simp +decide [expandEntry, mapOpt, buildRule, toolNamesOf,
       effectiveToolName, isTruthy, regexAll]),
   (C8_identity_and_expansion regexAll 2
      { toolName := some (Sum.inr ["create_issue", "close_issue"])
        mcpName := some "github"
        argsPattern := none
        decision := PolicyDecision.allow
        priority := 50
        modes := none } "github" "" ["create_issue", "close_issue"] _).2.2
     rfl
     (by simp +decide [expandEntry, mapOpt, buildRule, toolNamesOf,
       effectiveToolName, isTruthy, regexAll])⟩

/-- C10: the loader reads only regular files whose names end in `.toml`: a
missing directory contributes nothing silently, a directory with no such
entries contributes no rules and no log whatever `readFile` would return,
and the load result depends only on `readFile` at the `.toml` regular
files. -/
theorem C10_toml_regular_files_only (regexOk : String → Bool) (mode : String)
    (dcfg : PolicyDirs) (fs fs' : PolicyFS) (dir : String) :
    (fs.readdir dir = ReadDirResult.enoent →
      loadDir regexOk mode dcfg fs dir = ([], [])) ∧
    (∀ entries, fs.readdir dir = ReadDirResult.ok entries →
      (∀ e ∈ entries, (e.isFile && strEndsWith e.name ".toml") = false) →
      loadDir regexOk mode dcfg fs dir = ([], [])) ∧
    (∀ entries, fs.readdir dir = ReadDirResult.ok entries →
      fs'.readdir dir = ReadDirResult.ok entries →
      (∀ e ∈ entries, e.isFile = true → strEndsWith e.name ".toml" = true →
        fs'.readFile dir e.name = fs.readFile dir e.name) →
      loadDir regexOk mode dcfg fs' dir = loadDir regexOk mode dcfg fs dir) := by
  refine ⟨?_, ?_, ?_⟩
  · intro h
    unfold loadDir
    rw [h]
  · intro entries h hnone
    unfold loadDir
    rw [h]
    have : entries.filter (fun e => e.isFile && strEndsWith e.name ".toml") = [] := by
      rw [List.filter_eq_nil_iff]
      intro e he
      simp [hnone e he]
    simp [this]
  · intro entries h h' hsame
    have hcong :
        ∀ f' ∈ (entries.filter
            (fun e => e.isFile && strEndsWith e.name ".toml")).map
            (fun e => e.name),
          loadFile regexOk mode (getPolicyTier dcfg dir) fs' dir f' =
            loadFile regexOk mode (getPolicyTier dcfg dir) fs dir f' := by
      intro f' hf
      rcases List.mem_map.mp hf with ⟨en, hen, rfl⟩
      rcases List.mem_filter.mp hen with ⟨hmem, hcond⟩
      have hcond' : en.isFile = true ∧ strEndsWith en.name ".toml" = true := by
        simpa using hcond
      unfold loadFile
      rw [hsame en hmem hcond'.1 hcond'.2]
    unfold loadDir
    rw [h, h']
    dsimp only
    exact List.foldl_ext _ _ ([], []) (fun acc f' hf => by rw [hcong f' hf])

/-- C10 witness: a directory whose listing holds a subdirectory named
`sub.toml`, a non-TOML file and a TOML file: only the TOML regular file is
read; the missing-directory and irrelevant-entry cases are checked
concretely, and changing `readFile` outside `.toml` regular files does not
change the result. -/
theorem C10_toml_regular_files_only_witness :
    loadDir regexAll "default" dirs0 emptyFS "U" = ([], []) ∧
    loadDir regexAll "default" dirs0
      { readdir := fun dir =>
          if dir = "U" then
            ReadDirResult.ok [⟨"sub.toml", false⟩, ⟨"notes.txt", true⟩]
          else ReadDirResult.enoent
        readFile := fun _ _ => FileRead.parseFail } "U" = ([], []) ∧
    loadDir regexAll "default" dirs0
      { readdir := fsBadPattern.readdir
        readFile := fun dir file =>
          if file = "ignored.json" then FileRead.parseFail
          else fsBadPattern.readFile dir file } "U" =
      loadDir regexAll "default" dirs0 fsBadPattern "U" :=
  ⟨(C10_toml_regular_files_only regexAll "default" dirs0 emptyFS emptyFS "U").1
     (by rfl),
   (C10_toml_regular_files_only regexAll "default" dirs0
      { readdir := fun dir =>
          if dir = "U" then
            ReadDirResult.ok [⟨"sub.toml", false⟩, ⟨"notes.txt", true⟩]
          else ReadDirResult.enoent
        readFile := fun _ _ => FileRead.parseFail }
      emptyFS "U").2.1
     [⟨"sub.toml", false⟩, ⟨"notes.txt", true⟩] (by rfl) (by decide),
   (C10_toml_regular_files_only regexAll "default" dirs0 fsBadPattern
      { readdir := fsBadPattern.readdir
        readFile := fun dir file =>
          if file = "ignored.json" then FileRead.parseFail
          else fsBadPattern.readFile dir file } "U").2.2
     [⟨"a.toml", true⟩, ⟨"b.toml", true⟩] (by rfl) (by rfl) (by decide)⟩

end GeminiPolicy
